import Mathlib

/-!
Shallow embedding of the `arigold` request-routing shim.

The repository has two relevant modules:
  * `src/arigold/agent.py` — the `AgentOrchestrator` class: a registry of
    named sub-agent handles, prompt construction, and a request-processing
    operation that calls an external text-generation service and wraps the
    outcome into a result dictionary.
  * `src/arigold/main.py` — the HTTP Cloud-Function entry point
    `arigold_agent`, including CORS preflight handling.

Python dictionaries are modelled as association lists preserving insertion
order with unique keys maintained by the insert operation (`dictSet`), JSON
values as the inductive `JsonVal`, the external generation call as a function
parameter returning `Except` (exception message or response text), and the
async/await effect is erased (the generation call is the only suspension
point and is modelled by that same parameter).
-/

/-- JSON-style values as passed through the system (Python objects at the
HTTP boundary and in result dictionaries). Objects are association lists in
insertion order, matching Python dict semantics. -/
inductive JsonVal where
  | str (s : String)
  | num (n : Int)
  | bool (b : Bool)
  | null
  | arr (xs : List JsonVal)
  | obj (fields : List (String × JsonVal))
deriving Repr

/-- Python truthiness (`if x:`) for the values of `JsonVal`:
empty string, zero, `False`, `None`, empty list and empty dict are falsy. -/
def pyTruthy : JsonVal → Bool
  | .str s => !s.isEmpty
  | .num n => n != 0
  | .bool b => b
  | .null => false
  | .arr xs => !xs.isEmpty
  | .obj fields => !fields.isEmpty

mutual
/-- Python `repr` for the values of `JsonVal` (the fragment used when a
container value is coerced to display text in an f-string). -/
def pyRepr : JsonVal → String
  | .str s => "\x27" ++ s ++ "\x27"
  | .num n => toString n
  | .bool b => if b then "True" else "False"
  | .null => "None"
  | .arr xs => "[" ++ pyReprList xs ++ "]"
  | .obj fields => "\x7b" ++ pyReprFields fields ++ "\x7d"

/-- Comma-joined `repr`s of list elements. -/
def pyReprList : List JsonVal → String
  | [] => ""
  | [x] => pyRepr x
  | x :: xs => pyRepr x ++ ", " ++ pyReprList xs

/-- Comma-joined `repr`s of dict entries. -/
def pyReprFields : List (String × JsonVal) → String
  | [] => ""
  | [(k, v)] => pyRepr (.str k) ++ ": " ++ pyRepr v
  | (k, v) :: fields => pyRepr (.str k) ++ ": " ++ pyRepr v ++ ", " ++ pyReprFields fields
end

/-- Python `str` coercion (`f"- \x7bkey\x7d: \x7bvalue\x7d"` applies this to
`value`): identity on strings, `repr`-like rendering otherwise. -/
def pyStr : JsonVal → String
  | .str s => s
  | v => pyRepr v

/-- Configuration surface of `config.py` (`AgentConfig`): environment-sourced
settings; the fields below are the ones the agent and handler read. -/
structure AgentConfig where
  project_id : String
  location : String
  region : String
  api_key : String
  agent_name : String
  agent_description : String
  model_name : String
  temperature : Rat
  max_tokens : Nat
  log_level : String
  function_name : String
deriving Repr

/-- The defaults declared in `config.py` (the credential has no default and
is taken from the environment, hence a parameter here). -/
def defaultConfig (api_key : String) : AgentConfig where
  project_id := "jrw-demo-project"
  location := "us-central1"
  region := "us-central1"
  api_key := api_key
  agent_name := "Ari Gold Super Agent"
  agent_description := "An orchestrating agent that coordinates multiple specialized agents"
  model_name := "gemini-2.0-flash-exp"
  temperature := 7/10
  max_tokens := 512
  log_level := "INFO"
  function_name := "arigold-agent"

/-- Orchestrator state (`AgentOrchestrator.__init__`): `κ` is the opaque
type of the generation-service client handle, `α` the opaque type of
registered sub-agent handles. `sub_agents` is the Python dict
`self.sub_agents` as an insertion-ordered association list. -/
structure Orchestrator (κ : Type) (α : Type) where
  project_id : String
  location : String
  client : κ
  model_name : String
  temperature : Rat
  max_tokens : Nat
  sub_agents : List (String × α)

/-- Python `a or b` on an optional string (empty string is falsy). -/
def pyOrStr (a : Option String) (b : String) : String :=
  match a with
  | none => b
  | some s => if s.isEmpty then b else s

/-- `AgentOrchestrator.__init__`: fields from arguments with fall-back to
the global config; the client handle construction is opaque and passed in;
the sub-agent registry starts empty. -/
def Orchestrator.init {κ α : Type} (cfg : AgentConfig) (client : κ)
    (project_id location : Option String) : Orchestrator κ α where
  project_id := pyOrStr project_id cfg.project_id
  location := pyOrStr location cfg.location
  client := client
  model_name := cfg.model_name
  temperature := cfg.temperature
  max_tokens := cfg.max_tokens
  sub_agents := []

/-- Python dict assignment `d[k] = v`: overwrite the value in place if the
key is present (keeping its position), append otherwise. -/
def dictSet {α : Type} (d : List (String × α)) (k : String) (v : α) :
    List (String × α) :=
  if d.any (fun kv => kv.1 == k) then
    d.map (fun kv => if kv.1 == k then (kv.1, v) else kv)
  else
    d ++ [(k, v)]

/-- `AgentOrchestrator.register_agent`: `self.sub_agents[name] = agent`. -/
def register_agent {κ α : Type} (st : Orchestrator κ α) (name : String)
    (agent : α) : Orchestrator κ α :=
  { st with sub_agents := dictSet st.sub_agents name agent }

/-- `AgentOrchestrator.list_agents`: `list(self.sub_agents.keys())`. -/
def list_agents {κ α : Type} (st : Orchestrator κ α) : List String :=
  st.sub_agents.map Prod.fst

/-- The `agent_list` local of `_build_system_prompt`:
`", ".join(self.sub_agents.keys()) if self.sub_agents else "none"`. -/
def agent_list_str {κ α : Type} (st : Orchestrator κ α) : String :=
  if st.sub_agents.isEmpty then "none"
  else String.intercalate ", " (st.sub_agents.map Prod.fst)

/-- `AgentOrchestrator._build_system_prompt`: the f-string template of
`agent.py`, with `agent_list` the comma-joined registered names, or the
literal `"none"` when the registry is empty. -/
def build_system_prompt {κ α : Type} (cfg : AgentConfig)
    (st : Orchestrator κ α) : String :=
  "You are " ++ cfg.agent_name ++ ", " ++ cfg.agent_description ++
  ".\n\nYour role is to understand user requests and coordinate with specialized agents when needed.\n\nAvailable sub-agents: " ++
  agent_list_str st ++
  "\n\nWhen processing requests:\n1. Analyze the user\x27s request carefully\n2. Determine if you can handle it directly or if a specialized agent is needed\n3. If delegation is needed, explain which agent would be appropriate and why\n4. Provide clear, helpful responses\n5. Coordinate multiple agents if the task requires it\n\nAlways be helpful, clear, and efficient in your responses."

/-- Context mapping: optional dict of string keys to arbitrary values. -/
abbrev Ctx : Type := List (String × JsonVal)

/-- `AgentOrchestrator._prepare_prompt`: `"Context:"` header plus one
`- key: value` line per pair and a blank separator when the context is
truthy (present and non-empty), then always `User Request: <text>`,
newline-joined. -/
def prepare_prompt (user_request : String) (context : Option Ctx) : String :=
  let prompt_parts : List String :=
    match context with
    | some ctx =>
      if ctx.isEmpty then []
      else "Context:" :: ctx.map (fun kv => "- " ++ kv.1 ++ ": " ++ pyStr kv.2) ++ [""]
    | none => []
  String.intercalate "\n" (prompt_parts ++ ["User Request: " ++ user_request])

/-- Arguments of the single external generation call
(`client.models.generate_content`). -/
structure GenArgs where
  model : String
  contents : String
  temperature : Rat
  max_output_tokens : Nat
  system_instruction : String

/-- Behaviour of the external generation service: for given call arguments,
either the extracted response text (`response.text`) or the textual
description of a raised failure. -/
abbrev GenCall : Type := GenArgs → Except String String

/-- The argument record `process_request` passes to the generation call. -/
def genArgsOf {κ α : Type} (cfg : AgentConfig) (st : Orchestrator κ α)
    (user_request : String) (context : Option Ctx) : GenArgs where
  model := st.model_name
  contents := prepare_prompt user_request context
  temperature := st.temperature
  max_output_tokens := st.max_tokens
  system_instruction := build_system_prompt cfg st

/-- The fixed user-facing fallback message of the error record. -/
def fallbackMessage : String := "I encountered an error processing your request."

/-- `AgentOrchestrator.process_request` (async effect erased; the generation
call is the only suspension point and is modelled by the `gen` parameter):
build the system prompt and the full prompt, invoke the generation call, and
return either the success record or — on any failure — the error record.
`context or \x7b\x7d` maps an absent context to the empty mapping. -/
def process_request {κ α : Type} (cfg : AgentConfig) (st : Orchestrator κ α)
    (gen : GenCall) (user_request : String) (context : Option Ctx) :
    List (String × JsonVal) :=
  match gen (genArgsOf cfg st user_request context) with
  | .ok text =>
      [("response", .str text),
       ("model", .str st.model_name),
       ("agents_available", .arr ((list_agents st).map JsonVal.str)),
       ("context", .obj (context.getD []))]
  | .error e =>
      [("error", .str e),
       ("response", .str fallbackMessage),
       ("agents_available", .arr ((list_agents st).map JsonVal.str))]

/-- `process_request` as a state transformer: the method body contains no
assignment to any `self` field, so the post-state is the pre-state. -/
def process_request_step {κ α : Type} (cfg : AgentConfig)
    (st : Orchestrator κ α) (gen : GenCall) (user_request : String)
    (context : Option Ctx) : Orchestrator κ α × List (String × JsonVal) :=
  (st, process_request cfg st gen user_request context)

/-- `AgentOrchestrator.process_request_sync`: runs the coroutine of
`process_request` to completion (`asyncio.run`) and returns its result. -/
def process_request_sync {κ α : Type} (cfg : AgentConfig)
    (st : Orchestrator κ α) (gen : GenCall) (user_request : String)
    (context : Option Ctx) : List (String × JsonVal) :=
  process_request cfg st gen user_request context

/-! ### HTTP layer (`main.py`) -/

/-- Escaping of one character inside a JSON string literal, as performed by
the standard serializer for the ASCII fragment used here. -/
def jsonEscapeChar (c : Char) : String :=
  if c = '\"' then "\\\""
  else if c = '\\' then "\\\\"
  else if c = '\n' then "\\n"
  else if c = '\t' then "\\t"
  else if c = '\r' then "\\r"
  else String.singleton c

/-- JSON string-literal escaping. -/
def jsonEscape (s : String) : String :=
  String.join (s.data.map jsonEscapeChar)

mutual
/-- `json.dumps` with its default separators: serializes a value. -/
def JsonVal.dumps : JsonVal → String
  | .str s => "\"" ++ jsonEscape s ++ "\""
  | .num n => toString n
  | .bool b => if b then "true" else "false"
  | .null => "null"
  | .arr xs => "[" ++ dumpsList xs ++ "]"
  | .obj fields => "\x7b" ++ dumpsFields fields ++ "\x7d"

/-- Comma-joined serializations of array elements. -/
def dumpsList : List JsonVal → String
  | [] => ""
  | [x] => x.dumps
  | x :: xs => x.dumps ++ ", " ++ dumpsList xs

/-- Comma-joined `"key": value` serializations of object entries. -/
def dumpsFields : List (String × JsonVal) → String
  | [] => ""
  | [(k, v)] => "\"" ++ jsonEscape k ++ "\": " ++ v.dumps
  | (k, v) :: fields =>
      "\"" ++ jsonEscape k ++ "\": " ++ v.dumps ++ ", " ++ dumpsFields fields
end

/-- An incoming HTTP request as the handler observes it: the method, and the
result of `request.get_json(silent=True)` — `none` when the body is missing
or not parseable as JSON. -/
structure HttpRequest where
  method : String
  getJson : Option JsonVal

/-- The handler's return value: body string, status code, response headers. -/
structure HttpResponse where
  body : String
  status : Nat
  headers : List (String × String)
deriving Repr

/-- The CORS preflight headers returned for `OPTIONS` requests. -/
def corsPreflightHeaders : List (String × String) :=
  [("Access-Control-Allow-Origin", "*"),
   ("Access-Control-Allow-Methods", "POST, GET, OPTIONS"),
   ("Access-Control-Allow-Headers", "Content-Type"),
   ("Access-Control-Max-Age", "3600")]

/-- The CORS header attached to every non-preflight response. -/
def mainHeaders : List (String × String) :=
  [("Access-Control-Allow-Origin", "*")]

/-- Python `x.get(k, d)`: defined on dicts, raises `AttributeError` on any
other object (the raise surfaces as an `Except.error`). -/
def pyGet (v : JsonVal) (k : String) (d : JsonVal) : Except String JsonVal :=
  match v with
  | .obj fields => .ok ((fields.lookup k).getD d)
  | _ => .error "AttributeError: object has no attribute get"

/-- The behaviour of `agent.process_request_sync` as the handler sees it:
given the extracted `request` and `context` values, either a result
dictionary or the textual description of an escaped exception. -/
abbrev ProcCall : Type := JsonVal → JsonVal → Except String (List (String × JsonVal))

/-- The `try:` block of `arigold_agent` (`main.py`): parse the JSON body
(missing or falsy body → 400), extract `request` (falsy → 400) and `context`
(default empty dict), run the processing call (result dict → 200); an
`Except.error` is an exception escaping the block. -/
def handleBody (proc : ProcCall) (getJson : Option JsonVal) :
    Except String (String × Nat) :=
  match getJson with
  | none =>
      .ok ((JsonVal.obj [("error", .str "No JSON body provided")]).dumps, 400)
  | some j =>
      if pyTruthy j then
        match pyGet j "request" (.str "") with
        | .error e => .error e
        | .ok user_request =>
          if pyTruthy user_request then
            match pyGet j "context" (.obj []) with
            | .error e => .error e
            | .ok context =>
              match proc user_request context with
              | .ok result => .ok ((JsonVal.obj result).dumps, 200)
              | .error e => .error e
          else
            .ok ((JsonVal.obj
              [("error", .str "No \x27request\x27 field provided")]).dumps, 400)
      else
        .ok ((JsonVal.obj [("error", .str "No JSON body provided")]).dumps, 400)

/-- `arigold_agent` (`main.py`): `OPTIONS` preflight short-circuits with
status 204 and the CORS headers; otherwise run the `try:` block
(`handleBody`) and catch any escaped exception into a 500 response. All
non-preflight responses carry `mainHeaders`. -/
def arigold_agent (proc : ProcCall) (req : HttpRequest) : HttpResponse :=
  if req.method == "OPTIONS" then
    { body := "", status := 204, headers := corsPreflightHeaders }
  else
    match handleBody proc req.getJson with
    | .ok (body, status) => { body := body, status := status, headers := mainHeaders }
    | .error e =>
        { body := (JsonVal.obj [("error", .str ("Internal error: " ++ e))]).dumps,
          status := 500, headers := mainHeaders }

/-! ### Helper lemmas -/

/-- `sub` occurs as a contiguous substring of `s`. -/
def containsSub (s sub : String) : Prop :=
  ∃ pre post : List Char, s.data = pre ++ sub.data ++ post

theorem containsSub_self (s : String) : containsSub s s :=
  ⟨[], [], by simp⟩

theorem containsSub_appendl {s sub : String} (t : String)
    (h : containsSub s sub) : containsSub (s ++ t) sub := by
  obtain ⟨pre, post, hp⟩ := h
  exact ⟨pre, post ++ t.data, by simp [String.data_append, hp]⟩

theorem containsSub_appendr {t sub : String} (s : String)
    (h : containsSub t sub) : containsSub (s ++ t) sub := by
  obtain ⟨pre, post, hp⟩ := h
  exact ⟨s.data ++ pre, post, by simp [String.data_append, hp]⟩

theorem any_key_iff_mem {α : Type} (d : List (String × α)) (k : String) :
    d.any (fun kv => kv.1 == k) = true ↔ k ∈ d.map Prod.fst := by
  simp only [List.any_eq_true, beq_iff_eq, List.mem_map]

theorem map_fst_overwrite {α : Type} (d : List (String × α)) (k : String)
    (v : α) :
    (d.map (fun kv => if kv.1 == k then (kv.1, v) else kv)).map Prod.fst =
      d.map Prod.fst := by
  induction d with
  | nil => rfl
  | cons kv tl ih =>
      simp only [List.map_cons, ih, List.cons.injEq, and_true]
      split <;> rfl

theorem keys_dictSet {α : Type} (d : List (String × α)) (k : String) (v : α) :
    (dictSet d k v).map Prod.fst =
      if k ∈ d.map Prod.fst then d.map Prod.fst else d.map Prod.fst ++ [k] := by
  unfold dictSet
  by_cases hmem : k ∈ d.map Prod.fst
  · rw [if_pos ((any_key_iff_mem d k).mpr hmem), if_pos hmem, map_fst_overwrite]
  · rw [if_neg (by simpa using (any_key_iff_mem d k).not.mpr hmem), if_neg hmem]
    simp

theorem lookup_overwrite_self {α : Type} (d : List (String × α)) (k : String)
    (v : α) (h : d.any (fun kv => kv.1 == k) = true) :
    (d.map (fun kv => if kv.1 == k then (kv.1, v) else kv)).lookup k = some v := by
  induction d with
  | nil => simp at h
  | cons kv tl ih =>
      obtain ⟨k₀, v₀⟩ := kv
      by_cases hk : k₀ = k
      · simp [List.lookup_cons, hk]
      · have htl : tl.any (fun kv => kv.1 == k) = true := by
          simp only [List.any_cons, Bool.or_eq_true, beq_iff_eq] at h
          exact h.resolve_left hk
        simp only [List.map_cons, beq_false_of_ne hk, Bool.false_eq_true,
          if_false, List.lookup_cons, beq_false_of_ne (Ne.symm hk)]
        exact ih htl

theorem lookup_overwrite_ne {α : Type} (d : List (String × α)) (k k' : String)
    (v : α) (hne : k' ≠ k) :
    (d.map (fun kv => if kv.1 == k then (kv.1, v) else kv)).lookup k' =
      d.lookup k' := by
  induction d with
  | nil => rfl
  | cons kv tl ih =>
      obtain ⟨k₀, v₀⟩ := kv
      by_cases hk : k₀ = k
      · subst hk
        simp only [List.map_cons, beq_self_eq_true, if_true, List.lookup_cons,
          beq_false_of_ne hne]
        exact ih
      · by_cases hk' : k' = k₀
        · subst hk'
          simp only [List.map_cons, beq_false_of_ne hk, Bool.false_eq_true,
            if_false, List.lookup_cons, beq_self_eq_true]
        · simp only [List.map_cons, beq_false_of_ne hk, Bool.false_eq_true,
            if_false, List.lookup_cons, beq_false_of_ne hk']
          exact ih

theorem lookup_append_new {α : Type} (d : List (String × α)) (k : String)
    (v : α) (h : d.any (fun kv => kv.1 == k) = false) :
    (d ++ [(k, v)]).lookup k = some v := by
  induction d with
  | nil => simp
  | cons kv tl ih =>
      obtain ⟨k₀, v₀⟩ := kv
      simp only [List.any_cons, Bool.or_eq_false_iff] at h
      have hk : ¬ k = k₀ := fun hc => by
        simp [hc.symm] at h
      simp [List.lookup_cons, beq_false_of_ne hk, ih h.2]

theorem lookup_append_ne {α : Type} (d : List (String × α)) (k k' : String)
    (v : α) (hne : k' ≠ k) :
    (d ++ [(k, v)]).lookup k' = d.lookup k' := by
  induction d with
  | nil => simp [List.lookup_cons, beq_false_of_ne hne]
  | cons kv tl ih =>
      obtain ⟨k₀, v₀⟩ := kv
      by_cases hk' : k' = k₀
      · simp [List.lookup_cons, hk']
      · simp [List.lookup_cons, beq_false_of_ne hk', ih]

theorem lookup_dictSet_self {α : Type} (d : List (String × α)) (k : String)
    (v : α) : (dictSet d k v).lookup k = some v := by
  unfold dictSet
  by_cases h : d.any (fun kv => kv.1 == k) = true
  · rw [if_pos h]; exact lookup_overwrite_self d k v h
  · rw [if_neg h]; exact lookup_append_new d k v (Bool.of_not_eq_true h)

theorem lookup_dictSet_ne {α : Type} (d : List (String × α)) (k k' : String)
    (v : α) (hne : k' ≠ k) : (dictSet d k v).lookup k' = d.lookup k' := by
  unfold dictSet
  split
  · exact lookup_overwrite_ne d k k' v hne
  · exact lookup_append_ne d k k' v hne

theorem nodup_keys_dictSet {α : Type} (d : List (String × α)) (k : String)
    (v : α) (hnd : (d.map Prod.fst).Nodup) :
    ((dictSet d k v).map Prod.fst).Nodup := by
  rw [keys_dictSet]
  by_cases hmem : k ∈ d.map Prod.fst
  · rwa [if_pos hmem]
  · rw [if_neg hmem]
    rw [List.nodup_append]
    refine ⟨hnd, List.nodup_singleton _, ?_⟩
    intro a ha hb
    rw [List.mem_singleton] at hb
    exact hmem (hb ▸ ha)

theorem filter_key_eq_nil {α : Type} (d : List (String × α)) (k : String)
    (h : k ∉ d.map Prod.fst) :
    d.filter (fun kv => kv.1 == k) = [] := by
  induction d with
  | nil => rfl
  | cons kv tl ih =>
      obtain ⟨k₀, v₀⟩ := kv
      simp only [List.map_cons, List.mem_cons] at h
      push_neg at h
      simp [List.filter_cons, beq_false_of_ne (Ne.symm h.1), ih h.2]

theorem filter_key_overwrite {α : Type} (d : List (String × α)) (k : String)
    (v : α) (hnd : (d.map Prod.fst).Nodup) (hmem : k ∈ d.map Prod.fst) :
    ((d.map (fun kv => if kv.1 == k then (kv.1, v) else kv)).filter
      (fun kv => kv.1 == k)).length = 1 := by
  induction d with
  | nil => simp at hmem
  | cons kv tl ih =>
      obtain ⟨k₀, v₀⟩ := kv
      simp only [List.map_cons, List.nodup_cons] at hnd
      by_cases hk : k₀ = k
      · subst hk
        have htl : k₀ ∉ tl.map Prod.fst := hnd.1
        have hnil : (tl.map (fun kv => if kv.1 == k₀ then (kv.1, v) else kv)).filter
            (fun kv => kv.1 == k₀) = [] := by
          have hfe := filter_key_eq_nil
            (tl.map (fun kv => if kv.1 == k₀ then (kv.1, v) else kv)) k₀
          rw [map_fst_overwrite] at hfe
          exact hfe htl
        simp only [List.map_cons, beq_self_eq_true, if_true, List.filter_cons,
          hnil, List.length_cons, List.length_nil]
      · have hmem' : k ∈ tl.map Prod.fst := by
          rcases List.mem_cons.mp hmem with hc | hc
          · exact absurd hc.symm hk
          · exact hc
        simp [List.filter_cons, hk]
        simpa using ih hnd.2 hmem'

theorem filter_key_dictSet {α : Type} (d : List (String × α)) (k : String)
    (v : α) (hnd : (d.map Prod.fst).Nodup) :
    ((dictSet d k v).filter (fun kv => kv.1 == k)).length = 1 := by
  unfold dictSet
  by_cases hmem : k ∈ d.map Prod.fst
  · rw [if_pos ((any_key_iff_mem d k).mpr hmem)]
    exact filter_key_overwrite d k v hnd hmem
  · rw [if_neg (by simpa using (any_key_iff_mem d k).not.mpr hmem)]
    rw [List.filter_append, filter_key_eq_nil d k hmem]
    simp

/-! ### Claim theorems -/

/-- C1: for every non-empty request text and every context, when the
generation call fails with a (non-empty) textual description `e`,
`process_request` returns exactly the error record — `error` equal to `e`,
`response` exactly the fixed fallback string, `agents_available` the current
delegate-name list — and nothing else; no retry occurs. -/
theorem C1_error_record {κ α : Type} (cfg : AgentConfig)
    (st : Orchestrator κ α) (gen : GenCall) (user_request : String)
    (context : Option Ctx) (e : String)
    (hreq : user_request ≠ "") (he : e ≠ "")
    (hgen : gen (genArgsOf cfg st user_request context) = .error e) :
    process_request cfg st gen user_request context =
      [("error", .str e),
       ("response", .str "I encountered an error processing your request."),
       ("agents_available", .arr ((list_agents st).map JsonVal.str))]
    ∧ (process_request cfg st gen user_request context).lookup "error" =
        some (.str e)
    ∧ e ≠ "" := by
  unfold process_request
  rw [hgen]
  exact ⟨rfl, rfl, he⟩

/-- Witness for C1 at concrete inputs. -/
theorem C1_error_record_witness :
    process_request (defaultConfig "key")
        (Orchestrator.init (defaultConfig "key") 0 none none :
          Orchestrator Nat Nat)
        (fun _ => Except.error "boom") "hello" none =
      [("error", .str "boom"),
       ("response", .str "I encountered an error processing your request."),
       ("agents_available", .arr
         ((list_agents (Orchestrator.init (defaultConfig "key") 0 none none :
             Orchestrator Nat Nat)).map JsonVal.str))]
    ∧ (process_request (defaultConfig "key")
        (Orchestrator.init (defaultConfig "key") 0 none none :
          Orchestrator Nat Nat)
        (fun _ => Except.error "boom") "hello" none).lookup "error" =
        some (.str "boom")
    ∧ "boom" ≠ "" :=
  C1_error_record (defaultConfig "key") _ _ "hello" none "boom"
    (by decide) (by decide) rfl

/-- C2: for every non-empty request text with empty or absent context, when
the generation call succeeds with text `t`, `process_request` returns the
success record — `response` = `t`, `model` = the orchestrator's model
identifier, `agents_available` = the current delegate-name list, `context` =
the empty mapping — and the record has no `error` key. -/
theorem C2_success_record {κ α : Type} (cfg : AgentConfig)
    (st : Orchestrator κ α) (gen : GenCall) (user_request : String)
    (context : Option Ctx) (t : String)
    (hreq : user_request ≠ "")
    (hctx : context = none ∨ context = some [])
    (hgen : gen (genArgsOf cfg st user_request context) = .ok t) :
    process_request cfg st gen user_request context =
      [("response", .str t),
       ("model", .str st.model_name),
       ("agents_available", .arr ((list_agents st).map JsonVal.str)),
       ("context", .obj [])]
    ∧ (process_request cfg st gen user_request context).lookup "error" =
        none := by
  unfold process_request
  rw [hgen]
  have hc : context.getD [] = [] := by rcases hctx with rfl | rfl <;> rfl
  rw [hc]
  exact ⟨rfl, rfl⟩

/-- Witness for C2 at concrete inputs. -/
theorem C2_success_record_witness :
    process_request (defaultConfig "key")
        (Orchestrator.init (defaultConfig "key") 0 none none :
          Orchestrator Nat Nat)
        (fun _ => Except.ok "fine") "hello" none =
      [("response", .str "fine"),
       ("model", .str (Orchestrator.init (defaultConfig "key") 0 none none :
          Orchestrator Nat Nat).model_name),
       ("agents_available", .arr
         ((list_agents (Orchestrator.init (defaultConfig "key") 0 none none :
             Orchestrator Nat Nat)).map JsonVal.str)),
       ("context", .obj [])]
    ∧ (process_request (defaultConfig "key")
        (Orchestrator.init (defaultConfig "key") 0 none none :
          Orchestrator Nat Nat)
        (fun _ => Except.ok "fine") "hello" none).lookup "error" = none :=
  C2_success_record (defaultConfig "key") _ _ "hello" none "fine"
    (by decide) (Or.inl rfl) rfl

/-- C9: the synchronous variant produces output identical to the suspendable
variant for the same inputs and the same behaviour of the external
generation call. -/
theorem C9_sync_equals_async {κ α : Type} (cfg : AgentConfig)
    (st : Orchestrator κ α) (gen : GenCall) (user_request : String)
    (context : Option Ctx) :
    process_request_sync cfg st gen user_request context =
      process_request cfg st gen user_request context := rfl

/-- C10: `process_request` leaves the orchestrator state unchanged on every
branch, and `register_agent` changes only the delegate-mapping entry for the
given name — every other field and every other mapping entry is untouched. -/
theorem C10_frame {κ α : Type} (cfg : AgentConfig) (st : Orchestrator κ α)
    (gen : GenCall) (user_request : String) (context : Option Ctx)
    (name : String) (agent : α) :
    (process_request_step cfg st gen user_request context).1 = st
    ∧ (register_agent st name agent).project_id = st.project_id
    ∧ (register_agent st name agent).location = st.location
    ∧ (register_agent st name agent).client = st.client
    ∧ (register_agent st name agent).model_name = st.model_name
    ∧ (register_agent st name agent).temperature = st.temperature
    ∧ (register_agent st name agent).max_tokens = st.max_tokens
    ∧ (∀ k, k ≠ name →
        (register_agent st name agent).sub_agents.lookup k =
          st.sub_agents.lookup k)
    ∧ (register_agent st name agent).sub_agents.lookup name = some agent := by
  refine ⟨rfl, rfl, rfl, rfl, rfl, rfl, rfl, ?_, ?_⟩
  · intro k hk
    exact lookup_dictSet_ne st.sub_agents name k agent hk
  · exact lookup_dictSet_self st.sub_agents name agent

/-- Witness for C10 at concrete inputs. -/
theorem C10_frame_witness :
    (register_agent (Orchestrator.init (defaultConfig "key") 0 none none :
        Orchestrator Nat Nat) "x" 1).sub_agents.lookup "y" =
      (Orchestrator.init (defaultConfig "key") 0 none none :
        Orchestrator Nat Nat).sub_agents.lookup "y" :=
  (C10_frame (defaultConfig "key") _ (fun _ => Except.error "e") "hi" none
    "x" 1).2.2.2.2.2.2.2.1 "y" (by decide)

/-- C4: `list_agents` returns exactly the keys of the delegate mapping, in
insertion order; registration preserves this (a new name is appended at the
end, overwriting keeps the order unchanged) and request processing leaves
the registry untouched. -/
theorem C4_keys_invariant {κ α : Type} (st : Orchestrator κ α) :
    list_agents st = st.sub_agents.map Prod.fst
    ∧ (∀ (name : String) (agent : α),
        list_agents (register_agent st name agent) =
          if name ∈ list_agents st then list_agents st
          else list_agents st ++ [name])
    ∧ (∀ (cfg : AgentConfig) (gen : GenCall) (user_request : String)
        (context : Option Ctx),
        list_agents (process_request_step cfg st gen user_request context).1 =
          list_agents st) := by
  refine ⟨rfl, ?_, fun _ _ _ _ => rfl⟩
  intro name agent
  exact keys_dictSet st.sub_agents name agent

/-- C5: registration never fails and follows last-write-wins: after
registering `name` the listing contains `name`; after registering the same
name twice (starting from a well-formed registry), exactly one entry for
that name remains and it holds the handle of the second registration. -/
theorem C5_register_semantics {κ α : Type} (st : Orchestrator κ α)
    (name : String) (a₁ a₂ : α)
    (hnd : (st.sub_agents.map Prod.fst).Nodup) :
    name ∈ list_agents (register_agent st name a₁)
    ∧ ((register_agent (register_agent st name a₁) name a₂).sub_agents.filter
        (fun kv => kv.1 == name)).length = 1
    ∧ (register_agent (register_agent st name a₁) name a₂).sub_agents.lookup
        name = some a₂ := by
  refine ⟨?_, ?_, ?_⟩
  · show name ∈ (dictSet st.sub_agents name a₁).map Prod.fst
    rw [keys_dictSet]
    by_cases hmem : name ∈ st.sub_agents.map Prod.fst
    · rwa [if_pos hmem]
    · rw [if_neg hmem]; simp
  · exact filter_key_dictSet _ name a₂ (nodup_keys_dictSet _ _ _ hnd)
  · exact lookup_dictSet_self _ name a₂

/-- Witness for C5 at concrete inputs. -/
theorem C5_register_semantics_witness :
    "x" ∈ list_agents (register_agent
        (Orchestrator.init (defaultConfig "key") 0 none none :
          Orchestrator Nat Nat) "x" 1)
    ∧ ((register_agent (register_agent
          (Orchestrator.init (defaultConfig "key") 0 none none :
            Orchestrator Nat Nat) "x" 1) "x" 2).sub_agents.filter
        (fun kv => kv.1 == "x")).length = 1
    ∧ (register_agent (register_agent
          (Orchestrator.init (defaultConfig "key") 0 none none :
            Orchestrator Nat Nat) "x" 1) "x" 2).sub_agents.lookup "x" =
        some 2 :=
  C5_register_semantics _ "x" 1 2 (by simp [Orchestrator.init])

/-- C3: the user prompt is built exactly as specified: with context
`\x7b"user": "demo_user"\x7d` and request `"hello"` it is the literal
`Context:` line, the `- user: demo_user` line, a blank line, then
`User Request: hello`; for any non-empty context it is the `Context:`
header, one `- key: value` line per pair, a blank separator line, then
`User Request: <text>`; for empty or absent context it is just
`User Request: <text>`. -/
theorem C3_prepare_prompt :
    prepare_prompt "hello" (some [("user", .str "demo_user")]) =
      "Context:\n- user: demo_user\n\nUser Request: hello"
    ∧ (∀ (user_request : String) (ctx : Ctx), ctx ≠ [] →
        prepare_prompt user_request (some ctx) =
          String.intercalate "\n"
            ("Context:" ::
              ctx.map (fun kv => "- " ++ kv.1 ++ ": " ++ pyStr kv.2) ++
              ["", "User Request: " ++ user_request]))
    ∧ (∀ user_request : String,
        prepare_prompt user_request none = "User Request: " ++ user_request
        ∧ prepare_prompt user_request (some []) =
            "User Request: " ++ user_request) := by
  refine ⟨by rfl, ?_, fun u => ⟨rfl, rfl⟩⟩
  intro u ctx hctx
  have hie : ctx.isEmpty = false := by
    cases ctx with
    | nil => exact absurd rfl hctx
    | cons kv tl => rfl
  simp only [prepare_prompt, hie, Bool.false_eq_true, if_false]
  congr 1
  simp [List.append_assoc]

/-- Witness for C3 at concrete inputs. -/
theorem C3_prepare_prompt_witness :
    prepare_prompt "hi" (some [("k", .str "v")]) =
      String.intercalate "\n"
        ("Context:" ::
          ([("k", JsonVal.str "v")] : Ctx).map
            (fun kv => "- " ++ kv.1 ++ ": " ++ pyStr kv.2) ++
          ["", "User Request: " ++ "hi"]) :=
  C3_prepare_prompt.2.1 "hi" [("k", .str "v")] (List.cons_ne_nil _ _)

/-- C6: the system instruction contains the literal substring "none" when no
delegates are registered, otherwise the comma-joined registered names in
insertion order; in both cases it contains the configured agent name and
description. -/
theorem C6_system_prompt {κ α : Type} (cfg : AgentConfig)
    (st : Orchestrator κ α) :
    (st.sub_agents = [] → containsSub (build_system_prompt cfg st) "none")
    ∧ (st.sub_agents ≠ [] →
        containsSub (build_system_prompt cfg st)
          (String.intercalate ", " (list_agents st)))
    ∧ containsSub (build_system_prompt cfg st) cfg.agent_name
    ∧ containsSub (build_system_prompt cfg st) cfg.agent_description := by
  refine ⟨?_, ?_, ?_, ?_⟩
  · intro h
    unfold build_system_prompt
    have hl : agent_list_str st = "none" := by simp [agent_list_str, h]
    rw [hl]
    exact containsSub_appendl _ (containsSub_appendr _ (containsSub_self _))
  · intro h
    unfold build_system_prompt
    have hl : agent_list_str st =
        String.intercalate ", " (list_agents st) := by
      cases hs : st.sub_agents with
      | nil => exact absurd hs h
      | cons kv tl => simp [agent_list_str, list_agents, hs]
    rw [hl]
    exact containsSub_appendl _ (containsSub_appendr _ (containsSub_self _))
  · unfold build_system_prompt
    exact containsSub_appendl _ (containsSub_appendl _ (containsSub_appendl _
      (containsSub_appendl _ (containsSub_appendl _
        (containsSub_appendr _ (containsSub_self _))))))
  · unfold build_system_prompt
    exact containsSub_appendl _ (containsSub_appendl _ (containsSub_appendl _
      (containsSub_appendr _ (containsSub_self _))))

/-- Witness for C6 at concrete inputs (empty registry: the instruction
contains "none"). -/
theorem C6_system_prompt_witness :
    containsSub (build_system_prompt (defaultConfig "key")
      (Orchestrator.init (defaultConfig "key") 0 none none :
        Orchestrator Nat Nat)) "none" :=
  (C6_system_prompt (defaultConfig "key") _).1 rfl

theorem arigold_agent_not_options (proc : ProcCall) (req : HttpRequest)
    (hm : req.method ≠ "OPTIONS") :
    arigold_agent proc req =
      match handleBody proc req.getJson with
      | .ok (body, status) =>
          { body := body, status := status, headers := mainHeaders }
      | .error e =>
          { body := (JsonVal.obj
              [("error", .str ("Internal error: " ++ e))]).dumps,
            status := 500, headers := mainHeaders } := by
  unfold arigold_agent
  rw [if_neg]
  simp [beq_false_of_ne hm]

/-- C7: POST handling at the function entry point: a missing/non-JSON or
falsy body gives status 400 with a JSON error body; a missing or falsy
`request` field gives status 400 with a JSON error body; when the processing
call returns a result record (success or handled generation error) the
status is 200 with the record serialized as the body; when an exception
escapes the processing call the status is 500 with a JSON error body; in
particular POST with an empty-object body gives 400. -/
theorem C7_http_statuses (proc : ProcCall) :
    (∀ req : HttpRequest, req.method ≠ "OPTIONS" → req.getJson = none →
        (arigold_agent proc req).status = 400
        ∧ ∃ d, (arigold_agent proc req).body = (JsonVal.obj d).dumps
            ∧ (d.lookup "error").isSome)
    ∧ (∀ (req : HttpRequest) (j : JsonVal), req.method ≠ "OPTIONS" →
        req.getJson = some j → pyTruthy j = false →
        (arigold_agent proc req).status = 400
        ∧ ∃ d, (arigold_agent proc req).body = (JsonVal.obj d).dumps
            ∧ (d.lookup "error").isSome)
    ∧ (∀ (req : HttpRequest) (m : List (String × JsonVal)),
        req.method ≠ "OPTIONS" → req.getJson = some (.obj m) →
        pyTruthy ((m.lookup "request").getD (.str "")) = false →
        (arigold_agent proc req).status = 400
        ∧ ∃ d, (arigold_agent proc req).body = (JsonVal.obj d).dumps
            ∧ (d.lookup "error").isSome)
    ∧ (∀ (req : HttpRequest) (m result : List (String × JsonVal)),
        req.method ≠ "OPTIONS" → req.getJson = some (.obj m) →
        pyTruthy ((m.lookup "request").getD (.str "")) = true →
        proc ((m.lookup "request").getD (.str ""))
          ((m.lookup "context").getD (.obj [])) = .ok result →
        (arigold_agent proc req).status = 200
        ∧ (arigold_agent proc req).body = (JsonVal.obj result).dumps)
    ∧ (∀ (req : HttpRequest) (m : List (String × JsonVal)) (e : String),
        req.method ≠ "OPTIONS" → req.getJson = some (.obj m) →
        pyTruthy ((m.lookup "request").getD (.str "")) = true →
        proc ((m.lookup "request").getD (.str ""))
          ((m.lookup "context").getD (.obj [])) = .error e →
        (arigold_agent proc req).status = 500
        ∧ ∃ d, (arigold_agent proc req).body = (JsonVal.obj d).dumps
            ∧ (d.lookup "error").isSome)
    ∧ ((arigold_agent proc
          { method := "POST", getJson := some (.obj []) }).status = 400
        ∧ ∃ d, (arigold_agent proc
              { method := "POST", getJson := some (.obj []) }).body =
            (JsonVal.obj d).dumps
          ∧ (d.lookup "error").isSome) := by
  refine ⟨?_, ?_, ?_, ?_, ?_, ?_⟩
  · intro req hm hj
    rw [arigold_agent_not_options proc req hm, hj]
    exact ⟨rfl, ⟨[("error", .str "No JSON body provided")], rfl, rfl⟩⟩
  · intro req j hm hj ht
    have hh : handleBody proc (some j) =
        .ok ((JsonVal.obj [("error", .str "No JSON body provided")]).dumps,
          400) := by
      simp [handleBody, ht]
    rw [arigold_agent_not_options proc req hm, hj, hh]
    exact ⟨rfl, ⟨[("error", .str "No JSON body provided")], rfl, rfl⟩⟩
  · intro req m hm hj hreq
    rw [arigold_agent_not_options proc req hm, hj]
    by_cases ht : pyTruthy (.obj m) = true
    · have hh : handleBody proc (some (.obj m)) =
          .ok ((JsonVal.obj
            [("error", .str "No \x27request\x27 field provided")]).dumps,
            400) := by
        simp [handleBody, pyGet, ht, hreq]
      rw [hh]
      exact ⟨rfl,
        ⟨[("error", .str "No \x27request\x27 field provided")], rfl, rfl⟩⟩
    · have hh : handleBody proc (some (.obj m)) =
          .ok ((JsonVal.obj [("error", .str "No JSON body provided")]).dumps,
            400) := by
        simp [handleBody, Bool.of_not_eq_true ht]
      rw [hh]
      exact ⟨rfl, ⟨[("error", .str "No JSON body provided")], rfl, rfl⟩⟩
  · intro req m result hm hj hreq hp
    have ht : pyTruthy (.obj m) = true := by
      cases m with
      | nil => exact absurd hreq (by decide)
      | cons kv tl => rfl
    have hh : handleBody proc (some (.obj m)) =
        .ok ((JsonVal.obj result).dumps, 200) := by
      simp [handleBody, pyGet, ht, hreq, hp]
    rw [arigold_agent_not_options proc req hm, hj, hh]
    exact ⟨rfl, rfl⟩
  · intro req m e hm hj hreq hp
    have ht : pyTruthy (.obj m) = true := by
      cases m with
      | nil => exact absurd hreq (by decide)
      | cons kv tl => rfl
    have hh : handleBody proc (some (.obj m)) = .error e := by
      simp [handleBody, pyGet, ht, hreq, hp]
    rw [arigold_agent_not_options proc req hm, hj, hh]
    exact ⟨rfl, ⟨[("error", .str ("Internal error: " ++ e))], rfl, rfl⟩⟩
  · rw [arigold_agent_not_options proc _ (by decide)]
    exact ⟨rfl, ⟨[("error", .str "No JSON body provided")], rfl, rfl⟩⟩

/-- Witness for C7 at concrete inputs (POST with no JSON body → 400 with a
JSON error body). -/
theorem C7_http_statuses_witness :
    (arigold_agent (fun _ _ => Except.ok [])
        { method := "POST", getJson := none }).status = 400
    ∧ ∃ d, (arigold_agent (fun _ _ => Except.ok [])
          { method := "POST", getJson := none }).body = (JsonVal.obj d).dumps
        ∧ (d.lookup "error").isSome :=
  (C7_http_statuses (fun _ _ => Except.ok [])).1
    { method := "POST", getJson := none } (by decide) rfl

/-- C8: every OPTIONS request returns status 204 with an empty body and
exactly the four CORS preflight headers; every non-OPTIONS response carries
the header `Access-Control-Allow-Origin: *`. -/
theorem C8_cors (proc : ProcCall) :
    (∀ req : HttpRequest, req.method = "OPTIONS" →
        arigold_agent proc req =
          { body := "", status := 204,
            headers := [("Access-Control-Allow-Origin", "*"),
              ("Access-Control-Allow-Methods", "POST, GET, OPTIONS"),
              ("Access-Control-Allow-Headers", "Content-Type"),
              ("Access-Control-Max-Age", "3600")] })
    ∧ (∀ req : HttpRequest, req.method ≠ "OPTIONS" →
        (arigold_agent proc req).headers =
          [("Access-Control-Allow-Origin", "*")]) := by
  constructor
  · intro req h
    unfold arigold_agent
    rw [if_pos (by simp [h])]
    rfl
  · intro req h
    rw [arigold_agent_not_options proc req h]
    split <;> rfl

/-- Witness for C8 at concrete inputs. -/
theorem C8_cors_witness :
    arigold_agent (fun _ _ => Except.ok [])
        { method := "OPTIONS", getJson := none } =
      { body := "", status := 204,
        headers := [("Access-Control-Allow-Origin", "*"),
          ("Access-Control-Allow-Methods", "POST, GET, OPTIONS"),
          ("Access-Control-Allow-Headers", "Content-Type"),
          ("Access-Control-Max-Age", "3600")] } :=
  (C8_cors (fun _ _ => Except.ok [])).1
    { method := "OPTIONS", getJson := none } rfl
